import Mathlib

/-!
Shallow embedding of the one-way directory synchronizer in `main.go`
(package `main` of evanphx/sync).

File modes are Go `os.FileMode` bit masks carried in a `Nat`; sizes and
modification times are `Int` (Go `int64` values, never near overflow here).
A destination (or source) path's lstat result is `Option FileInfo`:
`none` models `os.IsNotExist`.  Filesystem effects are modelled as pure
functions from the old node at the affected path to the new node, and
fallible operations return `Except String`.
-/

namespace GoSync

/-- Go `os.ModeDir` (bit 31 of `os.FileMode`). -/
def ModeDir : Nat := 2 ^ 31

/-- Go `os.ModeSymlink` (bit 27). -/
def ModeSymlink : Nat := 2 ^ 27

/-- Go `os.ModeDevice` (bit 26). -/
def ModeDevice : Nat := 2 ^ 26

/-- Go `os.ModeNamedPipe` (bit 25). -/
def ModeNamedPipe : Nat := 2 ^ 25

/-- Go `os.ModeSocket` (bit 24). -/
def ModeSocket : Nat := 2 ^ 24

/-- Go `os.ModeCharDevice` (bit 21). -/
def ModeCharDevice : Nat := 2 ^ 21

/-- Go `os.ModeIrregular` (bit 19). -/
def ModeIrregular : Nat := 2 ^ 19

/-- Go `os.ModeType`: the union of all type bits. -/
def ModeType : Nat :=
  ModeDir ||| ModeSymlink ||| ModeNamedPipe ||| ModeSocket ||| ModeDevice |||
    ModeCharDevice ||| ModeIrregular

/-- Go `os.ModePerm` (`0o777`). -/
def ModePerm : Nat := 0o777

/-- The lstat/stat result for one path: Go `os.FileInfo`, plus the two
facts about the node the engine's calls depend on and `os.FileInfo`
itself does not carry: a symlink's target string (read by `os.Readlink`)
and whether a directory has children (decides whether `os.Remove`
succeeds on it). -/
structure FileInfo where
  mode : Nat
  size : Int
  modTime : Int
  linkTarget : String
  dirNonempty : Bool
deriving DecidableEq, Repr

/-- Go `fi.IsDir()`: `mode & ModeDir != 0`. -/
def FileInfo.IsDir (fi : FileInfo) : Bool := (fi.mode &&& ModeDir) != 0

/-- Go `fi.Mode().IsRegular()`: `mode & ModeType == 0`. -/
def FileInfo.IsRegular (fi : FileInfo) : Bool := (fi.mode &&& ModeType) == 0

/-- Go `fi.Mode()&os.ModeSymlink == os.ModeSymlink`. -/
def FileInfo.isSymlink (fi : FileInfo) : Bool :=
  (fi.mode &&& ModeSymlink) == ModeSymlink

/-- The staleness test exactly as written in `syncDirs` (main.go:227) and
`createEntry` (main.go:290):

`tfi.Size() == fi.Size() && tfi.ModTime().After(fi.ModTime()) || tfi.ModTime().Equal(fi.ModTime())`

Go's `&&` binds tighter than `||`, so the equal-modtime disjunct applies
whatever the sizes are.  `fi` is the source's info, `tfi` the
destination's. -/
def skipCheckGo (fi tfi : FileInfo) : Bool :=
  (tfi.size == fi.size && decide (fi.modTime < tfi.modTime)) ||
    tfi.modTime == fi.modTime

/-- The staleness test as the spec words it ("size equals AND modification
time at or after"): the conjunction applied to both time disjuncts.
Stated only to be compared with `skipCheckGo`. -/
def skipCheckSpec (fi tfi : FileInfo) : Bool :=
  tfi.size == fi.size &&
    (decide (fi.modTime < tfi.modTime) || tfi.modTime == fi.modTime)

/-- What the regular-file branch of the `syncDirs` walk callback
(main.go:220-238) decides to do with one source file, given the
destination lstat result. -/
inductive RegAction where
  | skip
  | copyAfterRemoveAll
  | copy
deriving DecidableEq, Repr

/-- The decision structure of main.go:220-238: destination missing →
copy; destination not a regular file → `os.RemoveAll` then copy;
otherwise copy unless `skipCheckGo` fires. -/
def syncRegularDecision (fi : FileInfo) (dst : Option FileInfo) : RegAction :=
  match dst with
  | some tfi =>
    if !tfi.IsRegular then .copyAfterRemoveAll
    else if skipCheckGo fi tfi then .skip
    else .copy
  | none => .copy

/-- `os.Remove`: unlinks a file, a symlink or an empty directory; fails
with ENOTEMPTY on a directory that has children, and with ENOENT when the
path is absent.  Non-recursive by design. -/
def osRemove (dst : Option FileInfo) : Except String (Option FileInfo) :=
  match dst with
  | none => .error "remove: no such file or directory"
  | some fi =>
    if fi.IsDir && fi.dirNonempty then .error "remove: directory not empty"
    else .ok none

/-- `os.Remove` with its error value discarded (as at main.go:125 and
main.go:383): on failure the node is left as it was. -/
def osRemoveIgnored (dst : Option FileInfo) : Option FileInfo :=
  match osRemove dst with
  | .ok d => d
  | .error _ => dst

/-- The node `os.Symlink(target, to)` leaves at `to` when it succeeds. -/
def symlinkNode (target : String) (now : Int) : FileInfo :=
  ⟨ModeSymlink ||| ModePerm, 0, now, target, false⟩

/-- `os.Symlink(target, to)`: fails with EEXIST when anything is at `to`. -/
def osSymlink (target : String) (dst : Option FileInfo) (now : Int) :
    Except String (Option FileInfo) :=
  match dst with
  | some _ => .error "symlink: file exists"
  | none => .ok (some (symlinkNode target now))

/-- The node `os.Mkdir(to, mode)` creates (the OS keeps the permission
bits of the requested mode). -/
def dirNode (mode : Nat) (now : Int) : FileInfo :=
  ⟨ModeDir ||| (mode &&& ModePerm), 0, now, "", false⟩

/-- A fresh regular file with the requested permission bits. -/
def newFileNode (mode : Nat) (size : Int) (now : Int) : FileInfo :=
  ⟨mode &&& ModePerm, size, now, "", false⟩

/-- `setupLink` (main.go:119-133): read the link target from the source,
`os.Remove` the destination with the error ignored, then `os.Symlink`
the verbatim target, wrapping a symlink failure.  `src` is the lstat of
the source path (`os.Readlink` fails unless it is a symlink). -/
def setupLink (src dst : Option FileInfo) (now : Int) :
    Except String (Option FileInfo) :=
  match src with
  | none => .error "reading link: no such file or directory"
  | some sfi =>
    if sfi.isSymlink then
      match osSymlink sfi.linkTarget (osRemoveIgnored dst) now with
      | .ok d => .ok d
      | .error e => .error ("symlinking: " ++ e)
    else .error "reading link: invalid argument"

/-- The effect on the destination node of
`os.OpenFile(to, os.O_CREATE, fi.Mode())` followed by `Close`
(main.go:295-301): creates an empty file with the source's permission
bits when the path is absent; an existing file is merely opened — its
content, size, mode and times are untouched (no `O_TRUNC`). -/
def openFileCreate (dst : Option FileInfo) (fi : FileInfo) (now : Int) :
    Option FileInfo :=
  match dst with
  | none => some (newFileNode fi.mode 0 now)
  | some f => some f

/-- How `createEntry` (main.go:250-302) disposed of the path, mirroring
its distinct return paths / log lines. -/
inductive CreateOutcome where
  | madeDir
  | linked
  | skippedOther
  | skippedStale
  | openedFile
deriving DecidableEq, Repr

/-- `createEntry(rel, w)` (main.go:250-302) given the lstat results of the
source and destination paths.  Returns the new destination node and the
outcome; `madeDir` also stands for the `w.Add(from)` registration. -/
def createEntry (src dst : Option FileInfo) (now : Int) :
    Except String (Option FileInfo × CreateOutcome) :=
  match src with
  | none => .error "lstat: no such file or directory"
  | some fi =>
    if fi.IsDir then
      match dst with
      | some _ => .error "mkdir: file exists"
      | none => .ok (some (dirNode fi.mode now), .madeDir)
    else if !fi.IsRegular then
      if fi.isSymlink then
        match setupLink src dst now with
        | .ok d => .ok (d, .linked)
        | .error e => .error e
      else .ok (dst, .skippedOther)
    else
      match dst with
      | some tfi =>
        if !tfi.IsRegular then
          -- os.RemoveAll(to), then fall through to OpenFile
          .ok (openFileCreate none fi now, .openedFile)
        else if skipCheckGo fi tfi then .ok (dst, .skippedStale)
        else .ok (openFileCreate dst fi now, .openedFile)
      | none => .ok (openFileCreate none fi now, .openedFile)

/-- How `copyFile` (main.go:304-372) disposed of the path, mirroring its
distinct return paths / log lines. -/
inductive CopyOutcome where
  | refusedDevice
  | refusedPipe
  | refusedSocket
  | refusedDir
  | refusedUnknown
  | toleratedMissingParent
  | truncatedZero
  | copied (bytes : Int)
deriving DecidableEq, Repr

/-- The outcomes of `copyFile` that return before the destination is even
opened ("Cowardly refusing ..."). -/
def CopyOutcome.isRefusal : CopyOutcome → Bool
  | .refusedDevice | .refusedPipe | .refusedSocket | .refusedDir
  | .refusedUnknown => true
  | _ => false

/-- The `switch fi.Mode() & os.ModeType` of `copyFile` (main.go:320-338):
`some oc` when the arm returns nil without touching the destination
("Cowardly refusing ..."), `none` for the symlink-or-regular arm that
falls through to the copy.  The `switch` compares the masked value for
equality with each single-bit constant, so a real character device
(which carries `ModeDevice|ModeCharDevice`) lands in the `default`
arm. -/
def copyClassify (mt : Nat) : Option CopyOutcome :=
  if mt == ModeDevice || mt == ModeCharDevice then some .refusedDevice
  else if mt == ModeNamedPipe then some .refusedPipe
  else if mt == ModeSocket then some .refusedSocket
  else if mt == ModeDir then some .refusedDir
  else if mt == ModeSymlink || mt == 0 then none
  else some .refusedUnknown

/-- `copyFile(rel, stat)` (main.go:304-372) given the stat of the opened
source, the destination lstat, and whether the destination's parent
directory exists (`os.IsNotExist` on the destination open).  Writing
through a destination that is a symlink follows the link, so the node at
the destination path itself is unchanged. -/
def copyFile (src dst : Option FileInfo) (destParentExists : Bool)
    (now : Int) : Except String (CopyOutcome × Option FileInfo) :=
  match src with
  | none => .error "open: no such file or directory"
  | some fi =>
    match copyClassify (fi.mode &&& ModeType) with
    | some oc => .ok (oc, dst)
    | none =>
      if !destParentExists then .ok (.toleratedMissingParent, dst)
      else
        match dst with
        | some d =>
          if d.IsDir then .error "opening file for writing: is a directory"
          else if d.isSymlink then
            if fi.size == 0 then .ok (.truncatedZero, dst)
            else .ok (.copied fi.size, dst)
          else
            if fi.size == 0 then
              .ok (.truncatedZero, some { d with size := 0, modTime := now })
            else
              .ok (.copied fi.size, some { d with size := fi.size, modTime := now })
        | none =>
          if fi.size == 0 then
            .ok (.truncatedZero, some (newFileNode fi.mode 0 now))
          else
            .ok (.copied fi.size, some (newFileNode fi.mode fi.size now))

/-- `removeEntry(rel, w)` (main.go:374-385): `w.Remove` with the error
value unread (`wRemoveFails` models whether that call failed) and
`os.Remove` with the error discarded; always returns nil. -/
def removeEntry (wRemoveFails : Bool) (dst : Option FileInfo) :
    Except String (Option FileInfo) :=
  .ok (osRemoveIgnored dst)

/-- `chmodFile(rel)` (main.go:387-401): lstat the source, then `os.Chmod`
the destination to its mode (permission bits replaced, type bits kept);
either failure is returned. -/
def chmodFile (src dst : Option FileInfo) : Except String (Option FileInfo) :=
  match src with
  | none => .error "lstat: no such file or directory"
  | some fi =>
    match dst with
    | none => .error "chmod: no such file or directory"
    | some d =>
      .ok (some { d with mode := (d.mode &&& ModeType) ||| (fi.mode &&& ModePerm) })

/-- What one invocation of the `filepath.Walk` callback inside `syncDirs`
(main.go:141-239) produced: the subtree was pruned (`filepath.SkipDir`),
or the entry was handled, leaving a new destination node and the bytes
added to the running total. -/
inductive WalkOut where
  | prunedSubtree
  | visited (dst : Option FileInfo) (bytes : Int)
deriving DecidableEq, Repr

/-- The `filepath.Walk` callback of `syncDirs` (main.go:141-239) for one
source entry: cancellation check, ignore check (pruning directories),
then the directory / symlink / other / regular-file arms.  `canceled`
models the non-blocking read of the cancel channel, `ignored` the
`ignore.Matches` result on the relative path, `dst` the destination
lstat, `destParentExists` whether `copyFile`'s destination open can
succeed. -/
def walkCallback (canceled ignored : Bool) (fi : FileInfo)
    (dst : Option FileInfo) (destParentExists : Bool) (now : Int) :
    Except String WalkOut :=
  if canceled then .error "canceled"
  else if ignored then
    if fi.IsDir then .ok .prunedSubtree else .ok (.visited dst 0)
  else if fi.IsDir then
    -- w.Add(path), then lstat the destination
    match dst with
    | none => .ok (.visited (some (dirNode fi.mode now)) 0)
    | some ft =>
      if !ft.IsDir then
        -- os.Remove the errant non-dir, then Mkdir
        .ok (.visited (some (dirNode fi.mode now)) 0)
      else
        -- os.Chmod to the source's mode
        .ok (.visited (some { ft with
          mode := (ft.mode &&& ModeType) ||| (fi.mode &&& ModePerm) }) 0)
  else if !fi.IsRegular then
    if fi.isSymlink then
      match setupLink (some fi) dst now with
      | .ok d => .ok (.visited d 0)
      | .error e => .error e
    else .ok (.visited dst 0)
  else
    match syncRegularDecision fi dst with
    | .skip => .ok (.visited dst 0)
    | .copyAfterRemoveAll =>
      -- os.RemoveAll(to); total += fi.Size(); copyFile
      match copyFile (some fi) none destParentExists now with
      | .ok (_, d) => .ok (.visited d fi.size)
      | .error e => .error e
    | .copy =>
      match copyFile (some fi) dst destParentExists now with
      | .ok (_, d) => .ok (.visited d fi.size)
      | .error e => .error e

/-- The per-entry inputs one step of the `syncDirs` walk consumes. -/
structure WalkEntryIn where
  canceled : Bool
  ignored : Bool
  fi : FileInfo
  dst : Option FileInfo
  destParentExists : Bool
  now : Int
deriving DecidableEq, Repr

/-- `syncDirs` (main.go:135-248) over the sequence of entries the walk
visits, in walk order: the first callback error aborts and propagates;
otherwise the byte total accumulates. -/
def syncDirsModel : List WalkEntryIn → Except String Int
  | [] => .ok 0
  | e :: es =>
    match walkCallback e.canceled e.ignored e.fi e.dst e.destParentExists e.now with
    | .error err => .error err
    | .ok .prunedSubtree => syncDirsModel es
    | .ok (.visited _ b) =>
      match syncDirsModel es with
      | .error err => .error err
      | .ok t => .ok (t + b)

/-- fsnotify `Create` bit. -/
def OpCreate : Nat := 1

/-- fsnotify `Write` bit. -/
def OpWrite : Nat := 2

/-- fsnotify `Remove` bit. -/
def OpRemove : Nat := 4

/-- fsnotify `Chmod` bit. -/
def OpChmod : Nat := 16

/-- How the event arm of `run`'s select (main.go:82-115) left the loop:
`returnNil` is the `return nil` on an ignored path (the whole loop — and
`run` — ends with success), `returnErr` a handler error propagated out of
`run`, `handled` a fully processed event after which the loop iterates. -/
inductive EventOut where
  | returnNil (dst : Option FileInfo)
  | returnErr (e : String)
  | handled (dst : Option FileInfo)
deriving DecidableEq, Repr

/-- The body of the `ev := <-w.Events` arm (main.go:82-114): ignore test
first, then each of the four flag bits tested and handled independently
in order create, write, remove, chmod, any handler error returned from
`run`.  The event's path is fixed, so the handlers are fed the lstat
results for that one path, each starting from the destination node the
previous handler left. -/
def handleEvent (ignored : Bool) (op : Nat) (src dst : Option FileInfo)
    (destParentExists : Bool) (now : Int) : EventOut :=
  if ignored then .returnNil dst
  else
    let r : Except String (Option FileInfo) := do
      let d1 ← if op &&& OpCreate == OpCreate then
          (createEntry src dst now).map Prod.fst
        else pure dst
      let d2 ← if op &&& OpWrite == OpWrite then
          (copyFile src d1 destParentExists now).map Prod.snd
        else pure d1
      let d3 ← if op &&& OpRemove == OpRemove then removeEntry false d2
        else pure d2
      let d4 ← if op &&& OpChmod == OpChmod then chmodFile src d3
        else pure d3
      pure d4
    match r with
    | .ok d => .handled d
    | .error e => .returnErr e

/-- One value arriving at the three-way select of `run`'s steady-state
loop (main.go:76-116). -/
inductive LoopInput where
  | cancelSig
  | watchErr (e : String)
  | watchEvent (ignored : Bool) (op : Nat) (src dst : Option FileInfo)
      (destParentExists : Bool) (now : Int)
deriving DecidableEq, Repr

/-- What one iteration of the steady-state loop did. -/
inductive LoopOut where
  | exitOk
  | exitErr (e : String)
  | continueLoop (dst : Option FileInfo)
deriving DecidableEq, Repr

/-- One iteration of `run`'s select loop (main.go:76-116): cancellation
returns nil, a watcher error is returned, an event goes through
`handleEvent`. -/
def loopStep : LoopInput → LoopOut
  | .cancelSig => .exitOk
  | .watchErr e => .exitErr e
  | .watchEvent ig op src dst pe now =>
    match handleEvent ig op src dst pe now with
    | .returnNil _ => .exitOk
    | .returnErr e => .exitErr e
    | .handled d => .continueLoop d

/-- The steady-state loop over a queue of inputs: `none` while no input
has yet made it return (the real loop blocks forever in that case). -/
def runLoopModel : List LoopInput → Option (Except String Unit)
  | [] => none
  | i :: rest =>
    match loopStep i with
    | .exitOk => some (.ok ())
    | .exitErr e => some (.error e)
    | .continueLoop _ => runLoopModel rest

/-- `run` (main.go:42-117) without its trace: remove the `.synced` marker,
walk (`syncDirs`), propagate a walk error, else create the marker and
enter the loop. -/
def runModel (entries : List WalkEntryIn) (loop : List LoopInput) :
    Option (Except String Unit) :=
  match syncDirsModel entries with
  | .error e => some (.error e)
  | .ok _ => runLoopModel loop

/-- The externally visible actions `run` (main.go:42-75) performs, in
program order: `os.Remove` of the `.synced` marker (main.go:45), one walk
visit per source entry reached by `syncDirs`, `os.Create` of the marker
(main.go:69), and entry into the steady-state loop (main.go:76). -/
inductive RunStep where
  | removeMarker
  | visit (i : Nat)
  | createMarker
  | loopStart
deriving DecidableEq, Repr

/-- Number of entries the walk reaches out of `n` when the callback
aborts (cancellation or a filesystem error) at index `abortAt`. -/
def numVisited (n : Nat) (abortAt : Option Nat) : Nat :=
  match abortAt with
  | none => n
  | some j => min (j + 1) n

/-- Whether the walk aborts before completing all `n` entries. -/
def walkAborts (n : Nat) (abortAt : Option Nat) : Bool :=
  match abortAt with
  | none => false
  | some j => j < n

/-- The action trace of `run` from startup through loop entry, over a
source tree whose walk visits `n` entries, aborting at index `abortAt`
if that is within range: marker removal first, then the visits; only a
completed walk reaches marker creation and the loop. -/
def runInitTrace (n : Nat) (abortAt : Option Nat) : List RunStep :=
  .removeMarker :: (List.range (numVisited n abortAt)).map .visit ++
    (if walkAborts n abortAt then [] else [.createMarker, .loopStart])

/-- Whether the `.synced` marker exists after a list of run steps,
starting from `init` (a stale marker may pre-exist): `removeMarker`
clears it, `createMarker` sets it, visits leave it alone. -/
def markerAfter (init : Bool) : List RunStep → Bool
  | [] => init
  | .removeMarker :: r => markerAfter false r
  | .createMarker :: r => markerAfter true r
  | .visit _ :: r => markerAfter init r
  | .loopStart :: r => markerAfter init r

/-! ### Helper lemmas -/

/-- If `m` has no bits inside `big` and all of `small`'s bits lie inside
`big`, then `m` has no bits inside `small`. -/
theorem land_eq_zero_of_sub (m big small : Nat) (hm : m &&& big = 0)
    (hs : small &&& big = small) : m &&& small = 0 := by
  calc m &&& small = m &&& (small &&& big) := by rw [hs]
    _ = m &&& (big &&& small) := by rw [Nat.land_comm small big]
    _ = m &&& big &&& small := by rw [Nat.land_assoc]
    _ = 0 &&& small := by rw [hm]
    _ = 0 := by simp

theorem isRegular_mode_eq (fi : FileInfo) (h : fi.IsRegular = true) :
    fi.mode &&& ModeType = 0 := by
  simpa [FileInfo.IsRegular] using h

theorem isDir_false_of_regular (fi : FileInfo) (h : fi.IsRegular = true) :
    fi.IsDir = false := by
  have h0 : fi.mode &&& ModeDir = 0 :=
    land_eq_zero_of_sub _ ModeType _ (isRegular_mode_eq fi h) (by decide)
  simp [FileInfo.IsDir, h0]

theorem isSymlink_false_of_regular (fi : FileInfo) (h : fi.IsRegular = true) :
    fi.isSymlink = false := by
  have h0 : fi.mode &&& ModeSymlink = 0 :=
    land_eq_zero_of_sub _ ModeType _ (isRegular_mode_eq fi h) (by decide)
  simp only [FileInfo.isSymlink, h0]
  decide

theorem newFileNode_isRegular (m : Nat) (size now : Int) :
    (newFileNode m size now).IsRegular = true := by
  have : (m &&& ModePerm) &&& ModeType = 0 := by
    rw [Nat.land_assoc]
    have : ModePerm &&& ModeType = 0 := by decide
    simp [this]
  simp [newFileNode, FileInfo.IsRegular, this]

/-- The Go staleness condition, unfolded to its propositional content. -/
theorem skipCheckGo_eq_true_iff (fi tfi : FileInfo) :
    skipCheckGo fi tfi = true ↔
      (tfi.size = fi.size ∧ fi.modTime < tfi.modTime) ∨ tfi.modTime = fi.modTime := by
  simp [skipCheckGo, Bool.or_eq_true, Bool.and_eq_true, beq_iff_eq,
    decide_eq_true_eq]

/-! ### Claims -/

/-- C1 counterexample: with a source file of size 1 and a destination
file of size 2 whose modification times are equal, both the `syncDirs`
walk and `createEntry` skip the copy — refuting the claim that the skip
happens only when the sizes are equal (Go's `&&` binds tighter than
`||`, so the equal-modtime disjunct ignores the sizes). -/
theorem c1_counterexample :
    syncRegularDecision ⟨0o644, 1, 0, "", false⟩ (some ⟨0o644, 2, 0, "", false⟩) =
      RegAction.skip ∧
    createEntry (some ⟨0o644, 1, 0, "", false⟩) (some ⟨0o644, 2, 0, "", false⟩) 3 =
      .ok (some ⟨0o644, 2, 0, "", false⟩, .skippedStale) ∧
    skipCheckSpec ⟨0o644, 1, 0, "", false⟩ ⟨0o644, 2, 0, "", false⟩ = false ∧
    ¬((2 : Int) = 1) :=
  ⟨by decide, by rfl, by decide, by decide⟩

/-- C1 (amended): both in the reconciliation walk and in `createEntry`,
the copy is skipped as already-synchronized exactly when the destination
is a regular file and either its size equals the source's and its
modification time is strictly after the source's, or its modification
time equals the source's — the latter regardless of sizes.  In every
other case the copy (resp. placeholder creation) is performed. -/
theorem c1_staleness_rule : ∀ (fi : FileInfo) (dst : Option FileInfo),
    (syncRegularDecision fi dst = RegAction.skip ↔
      ∃ tfi, dst = some tfi ∧ tfi.IsRegular = true ∧
        ((tfi.size = fi.size ∧ fi.modTime < tfi.modTime) ∨
          tfi.modTime = fi.modTime)) ∧
    (∀ (tfi : FileInfo) (now : Int), fi.IsRegular = true →
      (createEntry (some fi) (some tfi) now = .ok (some tfi, .skippedStale) ↔
        tfi.IsRegular = true ∧
          ((tfi.size = fi.size ∧ fi.modTime < tfi.modTime) ∨
            tfi.modTime = fi.modTime))) := by
  intro fi dst
  constructor
  · cases dst with
    | none => simp [syncRegularDecision]
    | some tfi =>
      cases hreg : tfi.IsRegular with
      | false =>
        simp [syncRegularDecision, hreg]
      | true =>
        cases hskip : skipCheckGo fi tfi with
        | true =>
          have hc := (skipCheckGo_eq_true_iff fi tfi).mp hskip
          simp [syncRegularDecision, hreg, hskip, hc]
        | false =>
          have hnc : ¬((tfi.size = fi.size ∧ fi.modTime < tfi.modTime) ∨
              tfi.modTime = fi.modTime) := by
            intro hc
            rw [(skipCheckGo_eq_true_iff fi tfi).mpr hc] at hskip
            simp at hskip
          simp [syncRegularDecision, hreg, hskip, hnc]
  · intro tfi now hfi
    have hdir := isDir_false_of_regular fi hfi
    cases hreg : tfi.IsRegular with
    | false =>
      simp [createEntry, hdir, hfi, hreg, openFileCreate]
    | true =>
      cases hskip : skipCheckGo fi tfi with
      | true =>
        have hc := (skipCheckGo_eq_true_iff fi tfi).mp hskip
        simp [createEntry, hdir, hfi, hreg, hskip, hc]
      | false =>
        have hnc : ¬((tfi.size = fi.size ∧ fi.modTime < tfi.modTime) ∨
            tfi.modTime = fi.modTime) := by
          intro hc
          rw [(skipCheckGo_eq_true_iff fi tfi).mpr hc] at hskip
          simp at hskip
        simp [createEntry, hdir, hfi, hreg, hskip, hnc, openFileCreate]

/-- C1 witness: the amended rule applied to a concrete regular source
file and an equal-mtime destination. -/
theorem c1_witness :
    createEntry (some ⟨0o644, 1, 0, "", false⟩) (some ⟨0o644, 2, 0, "", false⟩) 3 =
      .ok (some ⟨0o644, 2, 0, "", false⟩, .skippedStale) :=
  ((c1_staleness_rule ⟨0o644, 1, 0, "", false⟩
      (some ⟨0o644, 2, 0, "", false⟩)).2 ⟨0o644, 2, 0, "", false⟩ 3
    (by decide)).mpr ⟨by decide, Or.inr (by decide)⟩

/-- C2 counterexample: a create event on an ignored path makes the
dispatch arm hit `return nil`, which ends the whole `run` loop with
success instead of continuing to wait for further events. -/
theorem c2_counterexample :
    loopStep (.watchEvent true 1 none none true 0) = LoopOut.exitOk ∧
    loopStep (.watchEvent true 1 none none true 0) ≠ LoopOut.continueLoop none := by
  constructor
  · rfl
  · intro h
    cases h

/-- C2 (amended): for every watch event whose path the Ignore Matcher
matches, no action is taken on the destination for that event
(`handleEvent` returns the destination node unchanged), but the dispatch
loop does not continue: the `return nil` at main.go:89 terminates `run`
with success. -/
theorem c2_ignored_event : ∀ (op : Nat) (src dst : Option FileInfo)
    (pe : Bool) (now : Int),
    handleEvent true op src dst pe now = .returnNil dst ∧
    loopStep (.watchEvent true op src dst pe now) = .exitOk :=
  fun _ _ _ _ _ => ⟨rfl, rfl⟩

/-- C3 counterexample: cancellation observed during the initial
reconciliation walk makes the walk callback return the error
`"canceled"`, which `syncDirs` and `run` propagate — not a clean
success. -/
theorem c3_counterexample :
    runModel [⟨true, false, ⟨0o644, 1, 0, "", false⟩, none, true, 0⟩] [] =
      some (.error "canceled") ∧
    (some (Except.error "canceled") : Option (Except String Unit)) ≠
      some (.ok ()) := by
  constructor
  · rfl
  · intro h
    simp at h

/-- C3 (amended): cancellation observed in the steady-state event loop
terminates `run` cleanly with success, but cancellation observed during
the initial reconciliation walk aborts the walk with the error
`"canceled"`, which propagates out of `run` as an error. -/
theorem c3_cancellation : (∀ (ig : Bool) (fi : FileInfo)
      (dst : Option FileInfo) (pe : Bool) (now : Int),
      walkCallback true ig fi dst pe now = .error "canceled") ∧
    (∀ loop : List LoopInput,
      runLoopModel (.cancelSig :: loop) = some (.ok ())) ∧
    (∀ (e : WalkEntryIn) (es : List WalkEntryIn) (loop : List LoopInput),
      e.canceled = true →
      runModel (e :: es) loop = some (.error "canceled")) := by
  refine ⟨fun _ _ _ _ _ => rfl, fun _ => rfl, fun e es loop h => ?_⟩
  simp [runModel, syncDirsModel, walkCallback, h]

/-- C3 witness: the cancellation conjunct applied to a concrete
one-entry walk with the signal already set. -/
theorem c3_witness :
    runModel [⟨true, false, ⟨0o644, 1, 0, "", false⟩, none, true, 0⟩] [] =
      some (.error "canceled") :=
  c3_cancellation.2.2 ⟨true, false, ⟨0o644, 1, 0, "", false⟩, none, true, 0⟩ [] []
    rfl

/-- C4 counterexample: a create event for a source file of size 3 and
mtime 10, with an existing destination regular file of size 5 and mtime 0
(so the staleness check does not skip), leaves the destination file at
size 5: `os.OpenFile(to, os.O_CREATE, ...)` has no `O_TRUNC`, so nothing
is truncated and the result is not a zero-length file. -/
theorem c4_counterexample :
    createEntry (some ⟨0o644, 3, 10, "", false⟩) (some ⟨0o644, 5, 0, "", false⟩) 20 =
      .ok (some ⟨0o644, 5, 0, "", false⟩, .openedFile) ∧
    ¬((5 : Int) = 0) := by
  constructor
  · rfl
  · decide

/-- C4 (amended): for a create-flagged event on a regular source file
that the staleness check does not skip, the handler copies no content;
it produces a zero-length destination file with the source's permission
bits only when the destination is absent (or was a non-regular entry,
which is removed first); an existing destination regular file is merely
opened and closed — neither truncated nor otherwise modified. -/
theorem c4_create_no_trunc : ∀ (fi : FileInfo) (now : Int),
    fi.IsRegular = true →
    (createEntry (some fi) none now =
      .ok (some (newFileNode fi.mode 0 now), .openedFile)) ∧
    (∀ tfi : FileInfo, tfi.IsRegular = false →
      createEntry (some fi) (some tfi) now =
        .ok (some (newFileNode fi.mode 0 now), .openedFile)) ∧
    (∀ tfi : FileInfo, tfi.IsRegular = true → skipCheckGo fi tfi = false →
      createEntry (some fi) (some tfi) now = .ok (some tfi, .openedFile)) ∧
    (newFileNode fi.mode 0 now).size = 0 ∧
    (newFileNode fi.mode 0 now).mode = fi.mode &&& ModePerm := by
  intro fi now hfi
  have hdir := isDir_false_of_regular fi hfi
  refine ⟨?_, ?_, ?_, rfl, rfl⟩
  · simp [createEntry, hdir, hfi, openFileCreate]
  · intro tfi hreg
    simp [createEntry, hdir, hfi, hreg, openFileCreate]
  · intro tfi hreg hskip
    simp [createEntry, hdir, hfi, hreg, hskip, openFileCreate]

/-- C4 witness: the absent-destination conjunct at a concrete input. -/
theorem c4_witness :
    createEntry (some ⟨0o644, 3, 10, "", false⟩) none 20 =
      .ok (some (newFileNode 0o644 0 20), .openedFile) :=
  (c4_create_no_trunc ⟨0o644, 3, 10, "", false⟩ 20 (by decide)).1

/-- C5 counterexample: synchronizing a source symlink with target `"T"`
while the destination holds a non-empty directory does not leave a
symlink at the destination: the non-recursive `os.Remove` fails (error
ignored), `os.Symlink` then fails with EEXIST, and `setupLink` returns
that error with the destination directory still in place. -/
theorem c5_counterexample :
    setupLink (some ⟨ModeSymlink ||| 0o777, 0, 0, "T", false⟩)
      (some ⟨ModeDir ||| 0o755, 0, 0, "", true⟩) 5 =
      .error "symlinking: symlink: file exists" ∧
    osRemoveIgnored (some ⟨ModeDir ||| 0o755, 0, 0, "", true⟩) =
      some ⟨ModeDir ||| 0o755, 0, 0, "", true⟩ ∧
    (Except.error "symlinking: symlink: file exists" :
        Except String (Option FileInfo)) ≠
      .ok (some (symlinkNode "T" 5)) := by
  refine ⟨rfl, rfl, ?_⟩
  intro h
  simp at h

/-- C5 (amended): for a source symlink with target `T`, `setupLink`
leaves the destination as a symlink whose target is exactly `T`
(verbatim) whenever the destination is absent, a non-directory (e.g. a
regular file), or an empty directory; but when the destination is a
non-empty directory, it returns an error and the destination is left
unchanged (still that directory). -/
theorem c5_symlink_fidelity : ∀ (s : FileInfo) (dst : Option FileInfo)
    (now : Int), s.isSymlink = true →
    ((dst = none ∨ ∃ f, dst = some f ∧ (f.IsDir = false ∨ f.dirNonempty = false)) →
      setupLink (some s) dst now = .ok (some (symlinkNode s.linkTarget now))) ∧
    (∀ f : FileInfo, dst = some f → f.IsDir = true → f.dirNonempty = true →
      setupLink (some s) dst now = .error "symlinking: symlink: file exists" ∧
      osRemoveIgnored dst = dst) := by
  intro s dst now hs
  constructor
  · intro hd
    rcases hd with h | ⟨f, hf, hcase⟩
    · subst h
      simp [setupLink, hs, osRemoveIgnored, osRemove, osSymlink]
    · subst hf
      rcases hcase with h | h <;>
        simp [setupLink, hs, osRemoveIgnored, osRemove, osSymlink, h]
  · intro f hf h1 h2
    subst hf
    constructor
    · simp [setupLink, hs, osRemoveIgnored, osRemove, osSymlink, h1, h2]
    · simp [osRemoveIgnored, osRemove, h1, h2]

/-- C5 witness: the fidelity conjunct applied to a destination that
previously held a regular file. -/
theorem c5_witness :
    setupLink (some ⟨ModeSymlink ||| 0o777, 0, 0, "T", false⟩)
      (some ⟨0o644, 7, 1, "", false⟩) 5 = .ok (some (symlinkNode "T" 5)) :=
  (c5_symlink_fidelity ⟨ModeSymlink ||| 0o777, 0, 0, "T", false⟩
      (some ⟨0o644, 7, 1, "", false⟩) 5 (by decide)).1
    (Or.inr ⟨⟨0o644, 7, 1, "", false⟩, rfl, Or.inl (by decide)⟩)

theorem markerAfter_map_visit (b : Bool) (l : List Nat) :
    markerAfter b (l.map RunStep.visit) = b := by
  induction l with
  | nil => rfl
  | cons x xs ih => simpa [markerAfter] using ih

/-- C6: in `run`'s action trace the `.synced` marker is removed first,
before any walk visit; from then on it does not exist at any point up to
and including the last visited entry; it is created exactly once — and
only when the walk completes — after all visits and immediately before
the steady-state loop begins. -/
theorem c6_marker_ordering :
    (∀ (n : Nat) (ab : Option Nat),
      (runInitTrace n ab).head? = some RunStep.removeMarker) ∧
    (∀ (n : Nat) (ab : Option Nat) (init : Bool) (m : Nat),
      1 ≤ m → m ≤ 1 + numVisited n ab →
      markerAfter init ((runInitTrace n ab).take m) = false) ∧
    (∀ n : Nat, runInitTrace n none =
      RunStep.removeMarker :: (List.range n).map RunStep.visit ++
        [RunStep.createMarker, RunStep.loopStart]) ∧
    (∀ (n : Nat) (ab : Option Nat), walkAborts n ab = true →
      (runInitTrace n ab).count RunStep.createMarker = 0) ∧
    (∀ n : Nat, (runInitTrace n none).count RunStep.createMarker = 1) := by
  refine ⟨fun n ab => rfl, ?_, fun n => rfl, ?_, ?_⟩
  · intro n ab init m h1 h2
    obtain ⟨m, rfl⟩ : ∃ k, m = k + 1 := ⟨m - 1, by omega⟩
    simp only [runInitTrace, List.take_succ_cons, markerAfter, List.append_eq]
    have hm : m ≤ ((List.range (numVisited n ab)).map RunStep.visit).length := by
      simp only [List.length_map, List.length_range]
      omega
    rw [List.take_append_of_le_length hm, ← List.map_take]
    exact markerAfter_map_visit false _
  · intro n ab h
    simp [runInitTrace, h, List.count_cons, List.count_eq_zero, List.mem_map]
  · intro n
    simp [runInitTrace, walkAborts, List.count_cons, List.count_append,
      List.count_eq_zero, List.mem_map]

/-- C6 witness: after the marker removal and both visits of a completed
two-entry walk (trace prefix of length 3), the marker — even if it
existed stale at startup — is absent. -/
theorem c6_witness :
    markerAfter true ((runInitTrace 2 none).take 3) = false :=
  c6_marker_ordering.2.1 2 none true 3 (by decide) (by decide)

/-- C7: reconciliation is idempotent per regular file.  Copying a source
file leaves the destination a regular file with the source's size whose
modification time is the wall-clock time `t` of the copy; provided the
source's modification time is not in the future (`fi.modTime ≤ t`), the
staleness check of a second run short-circuits the copy for exactly that
destination node — both when the first run created the file fresh
(`newFileNode`) and when it overwrote an existing regular file. -/
theorem c7_second_run_skips : ∀ (fi : FileInfo) (t : Int), fi.modTime ≤ t →
    syncRegularDecision fi (some (newFileNode fi.mode fi.size t)) =
      RegAction.skip ∧
    (∀ d : FileInfo, d.IsRegular = true →
      syncRegularDecision fi (some { d with size := fi.size, modTime := t }) =
        RegAction.skip) ∧
    (fi.IsRegular = true →
      ∃ oc, copyFile (some fi) none true t =
        .ok (oc, some (newFileNode fi.mode fi.size t))) ∧
    (∀ d : FileInfo, fi.IsRegular = true → d.IsRegular = true →
      d.isSymlink = false →
      ∃ oc, copyFile (some fi) (some d) true t =
        .ok (oc, some { d with size := fi.size, modTime := t })) := by
  intro fi t ht
  have hsk : ∀ n : FileInfo, n.size = fi.size → n.modTime = t →
      skipCheckGo fi n = true := by
    intro n h1 h2
    apply (skipCheckGo_eq_true_iff fi n).mpr
    rcases lt_or_eq_of_le ht with h | h
    · exact Or.inl ⟨h1, h2 ▸ h⟩
    · exact Or.inr (by rw [h2, ← h])
  refine ⟨?_, ?_, ?_, ?_⟩
  · have h1 := hsk (newFileNode fi.mode fi.size t) rfl rfl
    simp [syncRegularDecision, newFileNode_isRegular, h1]
  · intro d hd
    have hr : ({ d with size := fi.size, modTime := t } : FileInfo).IsRegular = true := by
      simpa [FileInfo.IsRegular] using hd
    have h1 := hsk { d with size := fi.size, modTime := t } rfl rfl
    simp [syncRegularDecision, hr, h1]
  · intro hreg
    have h0 := isRegular_mode_eq fi hreg
    have hc : copyClassify (fi.mode &&& ModeType) = none := by
      rw [h0]; decide
    by_cases hz : fi.size = 0
    · exact ⟨.truncatedZero, by simp [copyFile, hc, hz]⟩
    · exact ⟨.copied fi.size, by simp [copyFile, hc, hz]⟩
  · intro d hreg hd hds
    have h0 := isRegular_mode_eq fi hreg
    have hc : copyClassify (fi.mode &&& ModeType) = none := by
      rw [h0]; decide
    have hdd := isDir_false_of_regular d hd
    by_cases hz : fi.size = 0
    · exact ⟨.truncatedZero, by simp [copyFile, hc, hdd, hds, hz]⟩
    · exact ⟨.copied fi.size, by simp [copyFile, hc, hdd, hds, hz]⟩

/-- C7 witness: a concrete regular source file and the node its first
copy produced, skipped by the second run. -/
theorem c7_witness :
    syncRegularDecision ⟨0o644, 4, 3, "", false⟩ (some (newFileNode 0o644 4 9)) =
      RegAction.skip :=
  (c7_second_run_skips ⟨0o644, 4, 3, "", false⟩ 9 (by decide)).1

/-- C8: for every source whose masked type is a block device, a
character device (`ModeDevice|ModeCharDevice`, or either bit alone), a
named pipe, a socket, or a directory, `copyFile` returns success with a
refusal outcome decided before the destination is opened: no bytes are
streamed and the destination node is returned unchanged. -/
theorem c8_refusal_no_op : ∀ (fi : FileInfo) (dst : Option FileInfo)
    (pe : Bool) (now : Int),
    (fi.mode &&& ModeType = ModeDevice ∨
      fi.mode &&& ModeType = (ModeDevice ||| ModeCharDevice) ∨
      fi.mode &&& ModeType = ModeCharDevice ∨
      fi.mode &&& ModeType = ModeNamedPipe ∨
      fi.mode &&& ModeType = ModeSocket ∨
      fi.mode &&& ModeType = ModeDir) →
    ∃ oc : CopyOutcome, copyFile (some fi) dst pe now = .ok (oc, dst) ∧
      oc.isRefusal = true := by
  intro fi dst pe now h
  rcases h with h | h | h | h | h | h
  · exact ⟨.refusedDevice, by simp [copyFile, show copyClassify (fi.mode &&& ModeType) = some .refusedDevice by rw [h]; decide], rfl⟩
  · exact ⟨.refusedUnknown, by simp [copyFile, show copyClassify (fi.mode &&& ModeType) = some .refusedUnknown by rw [h]; decide], rfl⟩
  · exact ⟨.refusedDevice, by simp [copyFile, show copyClassify (fi.mode &&& ModeType) = some .refusedDevice by rw [h]; decide], rfl⟩
  · exact ⟨.refusedPipe, by simp [copyFile, show copyClassify (fi.mode &&& ModeType) = some .refusedPipe by rw [h]; decide], rfl⟩
  · exact ⟨.refusedSocket, by simp [copyFile, show copyClassify (fi.mode &&& ModeType) = some .refusedSocket by rw [h]; decide], rfl⟩
  · exact ⟨.refusedDir, by simp [copyFile, show copyClassify (fi.mode &&& ModeType) = some .refusedDir by rw [h]; decide], rfl⟩

/-- C8 witness: a directory source is refused with the destination
untouched. -/
theorem c8_witness :
    ∃ oc : CopyOutcome,
      copyFile (some ⟨ModeDir ||| 0o755, 0, 0, "", true⟩) none true 0 =
        .ok (oc, none) ∧ oc.isRefusal = true :=
  c8_refusal_no_op ⟨ModeDir ||| 0o755, 0, 0, "", true⟩ none true 0 (by decide)

/-- C9: `removeEntry` never returns an error — the watch-unsubscription
failure is never even read and the `os.Remove` failure is discarded; its
result does not depend on whether the unsubscription failed; and for a
destination that is a non-empty directory the non-recursive `os.Remove`
fails, leaving the whole destination subtree in place while the handler
still reports success. -/
theorem c9_remove_never_errs :
    (∀ (w : Bool) (dst : Option FileInfo), ∃ d, removeEntry w dst = .ok d) ∧
    (∀ (w₁ w₂ : Bool) (dst : Option FileInfo),
      removeEntry w₁ dst = removeEntry w₂ dst) ∧
    (∀ (w : Bool) (f : FileInfo), f.IsDir = true → f.dirNonempty = true →
      removeEntry w (some f) = .ok (some f)) := by
  refine ⟨fun w dst => ⟨osRemoveIgnored dst, rfl⟩, fun _ _ _ => rfl, ?_⟩
  intro w f h1 h2
  simp [removeEntry, osRemoveIgnored, osRemove, h1, h2]

/-- C9 witness: removing a non-empty destination directory succeeds and
leaves it in place. -/
theorem c9_witness :
    removeEntry true (some ⟨ModeDir ||| 0o755, 0, 0, "", true⟩) =
      .ok (some ⟨ModeDir ||| 0o755, 0, 0, "", true⟩) :=
  c9_remove_never_errs.2.2 true ⟨ModeDir ||| 0o755, 0, 0, "", true⟩
    (by decide) rfl

/-- C10: directory creation in the create handler is not idempotent —
if anything already exists at the destination path, `os.Mkdir` fails,
`createEntry` returns that error, and the dispatch loop terminates with
it. -/
theorem c10_mkdir_errors : ∀ (fi tfi : FileInfo) (now : Int) (pe : Bool),
    fi.IsDir = true →
    createEntry (some fi) (some tfi) now = .error "mkdir: file exists" ∧
    loopStep (.watchEvent false OpCreate (some fi) (some tfi) pe now) =
      .exitErr "mkdir: file exists" := by
  intro fi tfi now pe h
  have h1 : createEntry (some fi) (some tfi) now = .error "mkdir: file exists" := by
    simp [createEntry, h]
  refine ⟨h1, ?_⟩
  simp [loopStep, handleEvent, OpCreate, OpWrite, OpRemove, OpChmod, h1,
    Except.map, Except.bind, bind]

/-- C10 witness: a create event for a source directory whose destination
counterpart already exists kills the loop. -/
theorem c10_witness :
    loopStep (.watchEvent false OpCreate
        (some ⟨ModeDir ||| 0o755, 0, 0, "", false⟩)
        (some (dirNode 0o755 0)) true 1) =
      .exitErr "mkdir: file exists" :=
  (c10_mkdir_errors ⟨ModeDir ||| 0o755, 0, 0, "", false⟩ (dirNode 0o755 0) 1
    true (by decide)).2

end GoSync
